import Mathlib

/-!
Shallow embedding of the live chat room engine of the live-video-player
repository (`src/backend/src/services/ChatService.ts` together with the
data model in `src/backend/src/models/ChatMessage.ts`), and proofs about
its membership, admission, moderation, history and eviction behaviour.

JS objects keyed by user id are modelled as association lists in insertion
order; `Date` values are millisecond timestamps (`Nat`); the fractional
seconds arithmetic of the slow-mode check is carried out exactly in `ℚ`.
Randomly generated values (uuids, colors) and the current time are passed
in as explicit parameters.
-/

/-- Lookup in a JS-object-like association list (first binding wins). -/
def lookupA {α : Type} (k : String) : List (String × α) → Option α
  | [] => none
  | p :: rest => if p.1 == k then some p.2 else lookupA k rest

/-- Assignment `obj[k] = v` on a JS-object-like association list: overwrite in
place when the key exists (JS objects keep the original insertion position),
append at the end otherwise. -/
def updateA {α : Type} (k : String) (v : α) : List (String × α) → List (String × α)
  | [] => [(k, v)]
  | p :: rest => if p.1 == k then (k, v) :: rest else p :: updateA k v rest

/-- Deletion `delete obj[k]` on a JS-object-like association list. -/
def removeA {α : Type} (k : String) (l : List (String × α)) : List (String × α) :=
  l.filter (fun p => p.1 != k)

/-- The JS expression `x || d` for an optional string: `undefined` and the
empty string are falsy. -/
def jsOrS (v : Option String) (d : String) : String :=
  match v with
  | some s => if s.isEmpty then d else s
  | none => d

/-- Message kind, from the `type` union of `ChatMessage` in
`src/backend/src/models/ChatMessage.ts`. -/
inductive MessageType where
  | message
  | system
  | moderation
  deriving DecidableEq

/-- The `ChatMessage` interface of `src/backend/src/models/ChatMessage.ts`. -/
structure ChatMessage where
  id : String
  roomId : String
  userId : String
  username : String
  message : String
  timestamp : Nat
  type : MessageType
  replyToId : Option String
  isModerated : Bool
  moderationReason : Option String
  deriving DecidableEq

/-- The `ChatUser` interface of `src/backend/src/models/ChatMessage.ts`. -/
structure ChatUser where
  id : String
  username : String
  displayName : String
  roles : List String
  joinedAt : Nat
  isBanned : Bool
  isMuted : Bool
  muteExpiry : Option Nat
  color : String
  deriving DecidableEq

/-- The `ChatRoomSettings` interface of `src/backend/src/models/ChatMessage.ts`. -/
structure ChatRoomSettings where
  slowMode : Bool
  slowModeInterval : ℚ
  subscriberOnly : Bool
  followerOnly : Bool
  followerTimeRequired : ℚ
  emoteOnly : Bool
  filteredWords : List String
  deriving DecidableEq

/-- The `ChatRoom` interface of `src/backend/src/models/ChatMessage.ts`. -/
structure ChatRoom where
  id : String
  name : String
  streamKey : String
  isActive : Bool
  createdAt : Nat
  userCount : Nat
  moderators : List String
  settings : ChatRoomSettings
  deriving DecidableEq

/-- The `ChatRoomState` interface of `src/backend/src/models/ChatMessage.ts`. -/
structure ChatRoomState where
  room : ChatRoom
  users : List (String × ChatUser)
  messages : List ChatMessage
  userCount : Nat
  lastActivity : Nat
  deriving DecidableEq

/-- The `defaultRoomSettings` field initializer of `ChatService`. -/
def defaultRoomSettings : ChatRoomSettings :=
  { slowMode := false, slowModeInterval := 3, subscriberOnly := false,
    followerOnly := false, followerTimeRequired := 0, emoteOnly := false,
    filteredWords := [] }

/-- `ChatService.hasModeratorPermission`. -/
def hasModeratorPermission (user : ChatUser) : Bool :=
  user.roles.any (fun role => ["moderator", "admin", "broadcaster"].contains role)

/-- The `bannedWords` field initializer of `ChatService`. -/
def bannedWords : List String := ["inappropriate1", "inappropriate2", "inappropriate3"]

/-- ASCII word character, the `\w` class used by the `\b` assertions of the
word-filter regular expression. -/
def isWordChar (c : Char) : Bool :=
  c.isAlphanum || c == '_'

/-- Case-insensitive character comparison (the `i` regex flag, ASCII fold). -/
def charFoldEq (a b : Char) : Bool :=
  a.toLower == b.toLower

/-- Case-insensitive literal match of the first list against a prefix of the
second list. -/
def matchCI : List Char → List Char → Bool
  | [], _ => true
  | _ :: _, [] => false
  | a :: w, b :: s => charFoldEq a b && matchCI w s

/-- Word-character test on an optional character; out of range counts as a
non-word character. -/
def wordOpt : Option Char → Bool
  | none => false
  | some c => isWordChar c

/-- The regex word-boundary assertion `\b` between two adjacent positions. -/
def wordBoundary (a b : Option Char) : Bool :=
  wordOpt a != wordOpt b

/-- Left-to-right scan of `String.prototype.replace` with a global
case-insensitive regex `\b<word>\b`: each leftmost non-overlapping
whole-word match of `w0 :: wr` is replaced with the mask `***`.  `prev` is
the character just before the current position of the scan (in the original
string), used by the word-boundary assertion.  The first argument is a
structural-recursion fuel, initialised to the length of the subject string;
every step consumes at least one character of the subject, so the fuel never
runs out before the subject is exhausted. -/
def scanRep (w0 : Char) (wr : List Char) : Nat → Option Char → List Char → List Char
  | 0, _, _ => []
  | _ + 1, _, [] => []
  | fuel + 1, prev, c :: rest =>
    if matchCI (w0 :: wr) (c :: rest)
        && wordBoundary prev (some c)
        && wordBoundary (((c :: rest).take (wr.length + 1)).getLast?) ((rest.drop wr.length).head?)
    then '*' :: '*' :: '*' :: scanRep w0 wr fuel (((c :: rest).take (wr.length + 1)).getLast?) (rest.drop wr.length)
    else c :: scanRep w0 wr fuel (some c) rest

/-- Replacement of every whole-word match of one filter word, as performed by
one iteration of the `allFilters.forEach` loop in `ChatService.moderateMessage`. -/
def replaceWord (word : String) (s : String) : String :=
  match word.data with
  | [] => s
  | w0 :: wr => String.mk (scanRep w0 wr s.data.length none s.data)

/-- `ChatService.moderateMessage`: apply each entry of the union of the global
banned-word list and the room-specific filters in order, skipping falsy
(empty) entries. -/
def moderateMessage (message : String) (additionalFilters : List String) : String :=
  (bannedWords ++ additionalFilters).foldl
    (fun acc word => if word.isEmpty then acc else replaceWord word acc) message

/-- `ChatService.addMessageToHistory`: push, then drop the oldest entry when
the history exceeds 1000 messages. -/
def addMessageToHistory (messages : List ChatMessage) (message : ChatMessage) : List ChatMessage :=
  let pushed := messages ++ [message]
  if pushed.length > 1000 then pushed.tail else pushed

/-- Rejection reasons of the send-message admission pipeline, one per
`socket.emit error` exit of the `send-message` handler (the slow-mode
rejection carries the reported wait time in seconds). -/
inductive SendError where
  | notInRoom
  | banned
  | muted
  | rateLimited (waitTime : ℤ)
  | subscriberOnly
  deriving DecidableEq

/-- Outcome of a send-message attempt. -/
inductive SendResult where
  | ok (message : ChatMessage)
  | err (e : SendError)
  deriving DecidableEq

/-- The slow-mode check of the `send-message` handler: when the room has
slow mode on and the sender is not a moderator, look up the sender's most
recent prior message-kind entry in the history; when the elapsed time in
seconds is below the configured interval, return the wait time
`ceil(interval - elapsed)` to report. -/
def slowModeCheck (settings : ChatRoomSettings) (user : ChatUser) (hist : List ChatMessage) (userId : String) (now : Nat) : Option ℤ :=
  if settings.slowMode && !hasModeratorPermission user then
    match (hist.filter (fun m => m.userId == userId && m.type == MessageType.message)).getLast? with
    | none => none
    | some lastMessage =>
      let secondsSinceLastMessage : ℚ := ((now : ℚ) - (lastMessage.timestamp : ℚ)) / 1000
      if secondsSinceLastMessage < settings.slowModeInterval then
        some ⌈settings.slowModeInterval - secondsSinceLastMessage⌉
      else none
  else none

/-- The `ChatMessage` constructed by the `send-message` handler for an
accepted message: the body is passed through `moderateMessage`, and when the
filtered body differs from the original the moderated flag and reason are
set. -/
def mkUserMessage (roomId userId : String) (user : ChatUser) (body : String) (filteredWords : List String) (replyToId : Option String) (now : Nat) (newId : String) : ChatMessage :=
  let moderatedMessage := moderateMessage body filteredWords
  let isModerated := moderatedMessage != body
  { id := newId, roomId := roomId, userId := userId, username := user.username,
    message := moderatedMessage, timestamp := now, type := .message,
    replyToId := replyToId, isModerated := isModerated,
    moderationReason := if isModerated then some "Contained filtered words" else none }

/-- Tail of the `send-message` handler after the ban and mute checks: slow
mode, subscriber-only mode, content moderation, message construction,
history append and room-activity update. -/
def sendChecks (roomId : String) (rs : ChatRoomState) (hist : List ChatMessage) (userId : String) (user : ChatUser) (body : String) (replyToId : Option String) (now : Nat) (newId : String) : ChatRoomState × List ChatMessage × SendResult :=
  match slowModeCheck rs.room.settings user hist userId now with
  | some waitTime => (rs, hist, .err (.rateLimited waitTime))
  | none =>
    if rs.room.settings.subscriberOnly && !user.roles.contains "subscriber"
        && !hasModeratorPermission user then
      (rs, hist, .err .subscriberOnly)
    else
      let chatMessage := mkUserMessage roomId userId user body rs.room.settings.filteredWords replyToId now newId
      ({ rs with lastActivity := now }, addMessageToHistory hist chatMessage, .ok chatMessage)

/-- The `send-message` handler of `ChatService.setupSocketHandlers`, scoped
to one room: membership, ban and mute checks (an expired mute is cleared in
place and processing continues), then `sendChecks`.  The possibly mutated
room state and history are returned alongside the outcome. -/
def sendMessage (roomId : String) (rs : ChatRoomState) (hist : List ChatMessage) (userId body : String) (replyToId : Option String) (now : Nat) (newId : String) : ChatRoomState × List ChatMessage × SendResult :=
  match lookupA userId rs.users with
  | none => (rs, hist, .err .notInRoom)
  | some user =>
    if user.isBanned then (rs, hist, .err .banned)
    else if user.isMuted then
      match user.muteExpiry with
      | none => (rs, hist, .err .muted)
      | some expiry =>
        if now < expiry then (rs, hist, .err .muted)
        else
          let cleared := { user with isMuted := false, muteExpiry := none }
          sendChecks roomId { rs with users := updateA userId cleared rs.users } hist userId cleared body replyToId now newId
    else sendChecks roomId rs hist userId user body replyToId now newId

/-- The `delete` arm of the `moderate` handler, acting on a room's message
history: locate the first message with the given id and mutate it in place
into the moderated placeholder form; `none` when the id is absent. -/
def applyDeleteAction (messageId : String) (reason : Option String) : List ChatMessage → Option (List ChatMessage)
  | [] => none
  | m :: rest =>
    if m.id == messageId then
      some ({ m with isModerated := true,
                     message := "[Message removed by moderator]",
                     moderationReason := some (jsOrS reason "Removed by moderator") } :: rest)
    else (applyDeleteAction messageId reason rest).map (fun tail => m :: tail)

/-- The mutable fields of a `ChatService` instance: the room registry, the
per-room history map, the socket/user registries, and the set of pending
empty-room eviction timers (room id paired with the scheduled fire time). -/
structure ServiceState where
  chatRooms : List (String × ChatRoomState)
  messageHistory : List (String × List ChatMessage)
  socketUsers : List (String × String)
  userSockets : List (String × String)
  pendingEvictions : List (String × Nat)
  deriving DecidableEq

/-- Outbound events emitted to connections, one variant per event name used
by the handlers modelled here. -/
inductive ChatEventOut where
  | roomJoined (roomId userId : String)
  | userJoined (roomId userId : String)
  | userLeft (roomId userId username : String)
  | newMessage (roomId : String) (message : ChatMessage)
  | moderationNotice (userId reason : String)
  | userBanned (roomId userId : String)
  deriving DecidableEq

/-- The grace window of the empty-room cleanup timer (`10 * 60 * 1000` ms). -/
def evictionDelayMs : Nat := 10 * 60 * 1000

/-- A system `ChatMessage` as constructed by `ChatService.addSystemMessage`. -/
def mkSystemMessage (newId roomId text : String) (now : Nat) : ChatMessage :=
  { id := newId, roomId := roomId, userId := "system", username := "System",
    message := text, timestamp := now, type := .system, replyToId := none,
    isModerated := false, moderationReason := none }

/-- `ChatService.addSystemMessage`: no-op when the room is unknown, otherwise
append the system message to the room's history and broadcast it. -/
def addSystemMessage (st : ServiceState) (roomId text newId : String) (now : Nat) : ServiceState × List ChatEventOut :=
  if (lookupA roomId st.chatRooms).isSome then
    let m := mkSystemMessage newId roomId text now
    let hist := (lookupA roomId st.messageHistory).getD []
    ({ st with messageHistory := updateA roomId (addMessageToHistory hist m) st.messageHistory },
     [ChatEventOut.newMessage roomId m])
  else (st, [])

/-- `ChatService.createRoom`: register a fresh room state and empty history
under the id and post the welcome system message. -/
def createRoom (st : ServiceState) (id name streamKey : String) (now : Nat) (welcomeId : String) : ServiceState × ChatRoomState × List ChatEventOut :=
  let room : ChatRoom :=
    { id := id, name := name, streamKey := streamKey, isActive := true,
      createdAt := now, userCount := 0, moderators := [], settings := defaultRoomSettings }
  let roomState : ChatRoomState :=
    { room := room, users := [], messages := [], userCount := 0, lastActivity := now }
  let st1 := { st with chatRooms := updateA id roomState st.chatRooms,
                       messageHistory := updateA id ([] : List ChatMessage) st.messageHistory }
  let stEv := addSystemMessage st1 id ("Welcome to " ++ name ++ "!") welcomeId now
  (stEv.1, roomState, stEv.2)

/-- `ChatService.findRoomByStreamKey`: first room whose bound stream key
matches, in registry insertion order. -/
def findRoomByStreamKey (st : ServiceState) (streamKey : String) : Option String :=
  (st.chatRooms.find? (fun p => p.2.room.streamKey == streamKey)).map (fun p => p.1)

/-- The caller-supplied `Partial ChatUser` fields of a join request. -/
structure JoinFields where
  username : Option String
  displayName : Option String
  roles : Option (List String)
  color : Option String
  deriving DecidableEq

/-- The fresh `ChatUser` constructed by the `join-room` handler (JS `||`
defaulting on the string fields, `['viewer']` when no role list is given,
`isBanned` and `isMuted` always reset). -/
def mkChatUser (userId : String) (u : JoinFields) (now : Nat) (randomColor : String) : ChatUser :=
  { id := userId,
    username := jsOrS u.username ("user_" ++ userId.take 8),
    displayName := jsOrS u.displayName (jsOrS u.username ("User " ++ userId.take 8)),
    roles := u.roles.getD ["viewer"],
    joinedAt := now,
    isBanned := false,
    isMuted := false,
    muteExpiry := none,
    color := jsOrS u.color randomColor }

/-- Tail of the `join-room` handler once the target room id is resolved:
get-or-create the room state, insert the freshly built `ChatUser`, recompute
the membership count, update the activity timestamp, and emit the join
events and system message. -/
def joinIntoRoom (st1 : ServiceState) (targetRoomId userId : String) (streamKey : Option String) (u : JoinFields) (now : Nat) (welcomeId sysId randomColor : String) : ServiceState × List ChatEventOut :=
  let chatUser := mkChatUser userId u now randomColor
  let fetched : ServiceState × ChatRoomState × List ChatEventOut :=
    match lookupA targetRoomId st1.chatRooms with
    | some rs => (st1, rs, [])
    | none =>
      let created := createRoom st1 targetRoomId ("Chat Room " ++ targetRoomId)
        (jsOrS streamKey targetRoomId) now welcomeId
      (created.1, created.2.1, created.2.2)
  let st2 := fetched.1
  let rs := fetched.2.1
  let ev2 := fetched.2.2
  let users1 := updateA userId chatUser rs.users
  let rs1 := { rs with users := users1, userCount := users1.length, lastActivity := now }
  let st3 := { st2 with chatRooms := updateA targetRoomId rs1 st2.chatRooms }
  let stEv := addSystemMessage st3 targetRoomId (chatUser.displayName ++ " joined the chat") sysId now
  (stEv.1, [ChatEventOut.roomJoined targetRoomId userId,
            ChatEventOut.userJoined targetRoomId userId] ++ ev2 ++ stEv.2)

/-- The `join-room` handler of `ChatService.setupSocketHandlers`: resolve the
target room (by stream key when one is given, creating the `stream_`-prefixed
room on demand), then join into it via `joinIntoRoom`. -/
def joinRoom (st : ServiceState) (socketId roomId : String) (streamKey : Option String) (u : JoinFields) (now : Nat) (welcomeId sysId randomColor : String) : ServiceState × List ChatEventOut :=
  match lookupA socketId st.socketUsers with
  | none => (st, [])
  | some userId =>
    let keyOpt : Option String :=
      match streamKey with
      | some k => if k.isEmpty then none else some k
      | none => none
    let resolved : ServiceState × String × List ChatEventOut :=
      match keyOpt with
      | none => (st, roomId, [])
      | some k =>
        match findRoomByStreamKey st k with
        | some rid => (st, rid, [])
        | none =>
          let created := createRoom st ("stream_" ++ k) ("Stream Chat: " ++ k) k now welcomeId
          (created.1, "stream_" ++ k, created.2.2)
    let res := joinIntoRoom resolved.1 resolved.2.1 userId streamKey u now welcomeId sysId randomColor
    (res.1, resolved.2.2 ++ res.2)

/-- `ChatService.handleUserLeave`: early return when the socket is
unregistered, the room is unknown or the user is not a member; otherwise
remove the member, recompute the count, emit the `user-left` broadcast and
system message, and schedule the empty-room eviction timer for a
non-stream-bound room whose membership dropped to zero. -/
def handleUserLeave (st : ServiceState) (socketId roomId : String) (now : Nat) (sysId : String) : ServiceState × List ChatEventOut :=
  match lookupA socketId st.socketUsers with
  | none => (st, [])
  | some userId =>
    match lookupA roomId st.chatRooms with
    | none => (st, [])
    | some rs =>
      match lookupA userId rs.users with
      | none => (st, [])
      | some user =>
        let users1 := removeA userId rs.users
        let rs1 := { rs with users := users1, userCount := users1.length }
        let st1 := { st with chatRooms := updateA roomId rs1 st.chatRooms }
        let stEv := addSystemMessage st1 roomId (user.displayName ++ " left the chat") sysId now
        let st3 :=
          if rs1.userCount == 0 && !rs1.room.id.startsWith "stream_" then
            { stEv.1 with pendingEvictions := stEv.1.pendingEvictions ++ [(roomId, now + evictionDelayMs)] }
          else stEv.1
        (st3, ChatEventOut.userLeft roomId userId user.username :: stEv.2)

/-- The `ban` arm of the `moderate` handler: permission and membership
checks, mark the target banned, and (only when the target has a live
socket) force it out of the room and recompute the count; then system
message and `user-banned` broadcast.  `none` models the handler's rejecting
early returns, which leave the state untouched. -/
def banAction (st : ServiceState) (socketId roomId targetId : String) (reason : Option String) (now : Nat) (sysId : String) : Option (ServiceState × List ChatEventOut) :=
  match lookupA socketId st.socketUsers with
  | none => none
  | some moderatorId =>
    match lookupA roomId st.chatRooms with
    | none => none
    | some rs =>
      match lookupA moderatorId rs.users with
      | none => none
      | some moderator =>
        if !hasModeratorPermission moderator then none
        else
          match lookupA targetId rs.users with
          | none => none
          | some banUser =>
            let rs1 := { rs with users := updateA targetId { banUser with isBanned := true } rs.users }
            let removedPair : ChatRoomState × List ChatEventOut :=
              match lookupA targetId st.userSockets with
              | some _ =>
                let users2 := removeA targetId rs1.users
                ({ rs1 with users := users2, userCount := users2.length },
                 [ChatEventOut.moderationNotice targetId (jsOrS reason "Banned by moderator")])
              | none => (rs1, [])
            let rs2 := removedPair.1
            let evNotice := removedPair.2
            let st1 := { st with chatRooms := updateA roomId rs2 st.chatRooms }
            let stEv := addSystemMessage st1 roomId (banUser.displayName ++ " has been banned by moderator") sysId now
            some (stEv.1, evNotice ++ stEv.2 ++ [ChatEventOut.userBanned roomId targetId])

/-- The `register` handler: bind the socket to the user id in both
registries. -/
def registerUser (st : ServiceState) (socketId userId : String) : ServiceState :=
  { st with socketUsers := updateA socketId userId st.socketUsers,
            userSockets := updateA userId socketId st.userSockets }

/-- The `disconnect` handler: run `handleUserLeave` for every room the
user is currently a member of, then drop the socket/user registrations. -/
def disconnectSocket (st : ServiceState) (socketId : String) (now : Nat) (sysId : String) : ServiceState × List ChatEventOut :=
  match lookupA socketId st.socketUsers with
  | none => (st, [])
  | some userId =>
    let roomIds := (st.chatRooms.filter (fun p => (lookupA userId p.2.users).isSome)).map (fun p => p.1)
    let folded := roomIds.foldl
      (fun acc rid =>
        let next := handleUserLeave acc.1 socketId rid now sysId
        (next.1, acc.2 ++ next.2))
      (st, ([] : List ChatEventOut))
    ({ folded.1 with socketUsers := removeA socketId folded.1.socketUsers,
                     userSockets := removeA userId folded.1.userSockets }, folded.2)

/-- The body of the empty-room cleanup timer scheduled in
`handleUserLeave`: re-check membership at fire time and delete the room and
its history only when the room still exists and is still empty. -/
def fireEviction (st : ServiceState) (roomId : String) : ServiceState :=
  let st0 := { st with pendingEvictions := removeA roomId st.pendingEvictions }
  match lookupA roomId st0.chatRooms with
  | none => st0
  | some rs =>
    if rs.userCount == 0 then
      { st0 with chatRooms := removeA roomId st0.chatRooms,
                 messageHistory := removeA roomId st0.messageHistory }
    else st0

/-- Operations driving the service state, used to quantify over sequences of
registrations, joins, leaves, bans, disconnects and eviction-timer firings. -/
inductive ChatOp where
  | register (socketId userId : String)
  | join (socketId roomId : String) (streamKey : Option String) (u : JoinFields) (now : Nat) (welcomeId sysId randomColor : String)
  | leave (socketId roomId : String) (now : Nat) (sysId : String)
  | ban (socketId roomId targetId : String) (reason : Option String) (now : Nat) (sysId : String)
  | disconnect (socketId : String) (now : Nat) (sysId : String)
  | evictionTimer (roomId : String)
  deriving DecidableEq

/-- One step of the service: apply an operation to the state (events
discarded). -/
def step (st : ServiceState) (op : ChatOp) : ServiceState :=
  match op with
  | .register s u => registerUser st s u
  | .join s r k u now wid sid c => (joinRoom st s r k u now wid sid c).1
  | .leave s r now sid => (handleUserLeave st s r now sid).1
  | .ban s r t reason now sid =>
    match banAction st s r t reason now sid with
    | some res => res.1
    | none => st
  | .disconnect s now sid => (disconnectSocket st s now sid).1
  | .evictionTimer r => fireEviction st r

/-- The state of a freshly constructed `ChatService`. -/
def initialState : ServiceState :=
  { chatRooms := [], messageHistory := [], socketUsers := [], userSockets := [],
    pendingEvictions := [] }

/-! ### Association-list lemmas -/

theorem lookupA_cons {α : Type} (k : String) (p : String × α) (rest : List (String × α)) :
    lookupA k (p :: rest) = if p.1 = k then some p.2 else lookupA k rest := by
  simp [lookupA]

theorem updateA_cons {α : Type} (k : String) (v : α) (p : String × α) (rest : List (String × α)) :
    updateA k v (p :: rest) = if p.1 = k then (k, v) :: rest else p :: updateA k v rest := by
  simp [updateA]

theorem lookupA_updateA_self {α : Type} (k : String) (v : α) (l : List (String × α)) :
    lookupA k (updateA k v l) = some v := by
  induction l with
  | nil => simp [lookupA, updateA]
  | cons p rest ih =>
    rw [updateA_cons]
    by_cases h : p.1 = k
    · rw [if_pos h, lookupA_cons]
      simp
    · rw [if_neg h, lookupA_cons, if_neg h, ih]

theorem lookupA_updateA_ne {α : Type} {k k' : String} (hne : k' ≠ k) (v : α) (l : List (String × α)) :
    lookupA k' (updateA k v l) = lookupA k' l := by
  have hkk : k ≠ k' := fun h => hne h.symm
  induction l with
  | nil => simp [lookupA, updateA, hkk]
  | cons p rest ih =>
    rw [updateA_cons]
    by_cases h : p.1 = k
    · rw [if_pos h, lookupA_cons, lookupA_cons]
      have hp : p.1 ≠ k' := by rw [h]; exact hkk
      rw [if_neg hkk, if_neg hp]
    · rw [if_neg h, lookupA_cons, lookupA_cons, ih]

theorem length_updateA_of_lookup {α : Type} {k : String} {v : α} {l : List (String × α)}
    (h : lookupA k l = some v) (v' : α) : (updateA k v' l).length = l.length := by
  induction l with
  | nil => simp [lookupA] at h
  | cons p rest ih =>
    rw [updateA_cons]
    by_cases hk : p.1 = k
    · rw [if_pos hk]
      simp
    · rw [lookupA_cons, if_neg hk] at h
      rw [if_neg hk]
      simp [ih h]

theorem removeA_cons {α : Type} (k : String) (p : String × α) (rest : List (String × α)) :
    removeA k (p :: rest) = if p.1 = k then removeA k rest else p :: removeA k rest := by
  by_cases h : p.1 = k
  · simp [removeA, List.filter_cons, h]
  · simp [removeA, List.filter_cons, h]

theorem lookupA_removeA_self {α : Type} (k : String) (l : List (String × α)) :
    lookupA k (removeA k l) = none := by
  induction l with
  | nil => simp [lookupA, removeA]
  | cons p rest ih =>
    rw [removeA_cons]
    by_cases h : p.1 = k
    · rw [if_pos h]; exact ih
    · rw [if_neg h, lookupA_cons, if_neg h]; exact ih

theorem lookupA_removeA_ne {α : Type} {k k' : String} (hne : k' ≠ k) (l : List (String × α)) :
    lookupA k' (removeA k l) = lookupA k' l := by
  induction l with
  | nil => simp [removeA]
  | cons p rest ih =>
    rw [removeA_cons]
    by_cases h : p.1 = k
    · have hp : p.1 ≠ k' := by rw [h]; exact fun hh => hne hh.symm
      rw [if_pos h, lookupA_cons, if_neg hp]
      exact ih
    · rw [if_neg h, lookupA_cons, lookupA_cons, ih]

theorem forall_updateA {α : Type} {P : String × α → Prop} {l : List (String × α)}
    (hl : ∀ p ∈ l, P p) {k : String} {v : α} (hv : P (k, v)) :
    ∀ p ∈ updateA k v l, P p := by
  induction l with
  | nil =>
    intro p hp
    simp only [updateA, List.mem_singleton] at hp
    rw [hp]
    exact hv
  | cons q rest ih =>
    intro p hp
    rw [updateA_cons] at hp
    by_cases h : q.1 = k
    · rw [if_pos h] at hp
      rcases List.mem_cons.mp hp with rfl | hp
      · exact hv
      · exact hl p (List.mem_cons_of_mem q hp)
    · rw [if_neg h] at hp
      rcases List.mem_cons.mp hp with rfl | hp
      · exact hl p (List.mem_cons_self p rest)
      · exact ih (fun q' hq' => hl q' (List.mem_cons_of_mem q hq')) p hp

theorem forall_removeA {α : Type} {P : String × α → Prop} {l : List (String × α)}
    (hl : ∀ p ∈ l, P p) (k : String) :
    ∀ p ∈ removeA k l, P p := by
  intro p hp
  exact hl p (List.mem_of_mem_filter hp)

theorem mem_of_lookupA {α : Type} {k : String} {v : α} {l : List (String × α)}
    (h : lookupA k l = some v) : (k, v) ∈ l := by
  induction l with
  | nil => simp [lookupA] at h
  | cons p rest ih =>
    rw [lookupA_cons] at h
    by_cases hk : p.1 = k
    · rw [if_pos hk] at h
      have : p = (k, v) := by
        cases p
        simp only [Option.some.injEq] at h
        simp_all
      rw [this] at *
      exact List.mem_cons_self _ _
    · rw [if_neg hk] at h
      exact List.mem_cons_of_mem p (ih h)

/-! ### Projection lemmas for the service operations -/

theorem addSystemMessage_chatRooms (st : ServiceState) (roomId text newId : String) (now : Nat) :
    (addSystemMessage st roomId text newId now).1.chatRooms = st.chatRooms := by
  unfold addSystemMessage
  split <;> rfl

theorem addSystemMessage_socketUsers (st : ServiceState) (roomId text newId : String) (now : Nat) :
    (addSystemMessage st roomId text newId now).1.socketUsers = st.socketUsers := by
  unfold addSystemMessage
  split <;> rfl

theorem addSystemMessage_userSockets (st : ServiceState) (roomId text newId : String) (now : Nat) :
    (addSystemMessage st roomId text newId now).1.userSockets = st.userSockets := by
  unfold addSystemMessage
  split <;> rfl

theorem addSystemMessage_pendingEvictions (st : ServiceState) (roomId text newId : String) (now : Nat) :
    (addSystemMessage st roomId text newId now).1.pendingEvictions = st.pendingEvictions := by
  unfold addSystemMessage
  split <;> rfl

theorem sendChecks_users (roomId : String) (rs : ChatRoomState) (hist : List ChatMessage)
    (userId : String) (user : ChatUser) (body : String) (replyToId : Option String)
    (now : Nat) (newId : String) :
    (sendChecks roomId rs hist userId user body replyToId now newId).1.users = rs.users := by
  unfold sendChecks
  split
  · rfl
  · split <;> rfl

theorem sendChecks_ne_err_muted (roomId : String) (rs : ChatRoomState) (hist : List ChatMessage)
    (userId : String) (user : ChatUser) (body : String) (replyToId : Option String)
    (now : Nat) (newId : String) :
    (sendChecks roomId rs hist userId user body replyToId now newId).2.2 ≠ .err .muted := by
  unfold sendChecks
  split
  · simp
  · split <;> simp

theorem sendChecks_ne_err_banned (roomId : String) (rs : ChatRoomState) (hist : List ChatMessage)
    (userId : String) (user : ChatUser) (body : String) (replyToId : Option String)
    (now : Nat) (newId : String) :
    (sendChecks roomId rs hist userId user body replyToId now newId).2.2 ≠ .err .banned := by
  unfold sendChecks
  split
  · simp
  · split <;> simp

theorem sendChecks_rateLimited_iff (roomId : String) (rs : ChatRoomState) (hist : List ChatMessage)
    (userId : String) (user : ChatUser) (body : String) (replyToId : Option String)
    (now : Nat) (newId : String) (w : ℤ) :
    (sendChecks roomId rs hist userId user body replyToId now newId).2.2 = .err (.rateLimited w)
      ↔ slowModeCheck rs.room.settings user hist userId now = some w := by
  unfold sendChecks
  split
  · rename_i w' hw
    rw [hw]
    simp
  · rename_i hw
    rw [hw]
    split <;> simp

/-! ### C4: bounded FIFO history -/

theorem addMessageToHistory_of_lt (l : List ChatMessage) (m : ChatMessage) (h : l.length < 1000) :
    addMessageToHistory l m = l ++ [m] := by
  simp only [addMessageToHistory]
  rw [if_neg]
  simp only [List.length_append, List.length_singleton]
  omega

theorem addMessageToHistory_of_ge (l : List ChatMessage) (m : ChatMessage) (h : 1000 ≤ l.length) :
    addMessageToHistory l m = (l ++ [m]).tail := by
  simp only [addMessageToHistory]
  rw [if_pos]
  simp only [List.length_append, List.length_singleton]
  omega

theorem addMessageToHistory_drop_eq (msgs : List ChatMessage) (m : ChatMessage) :
    addMessageToHistory (msgs.drop (msgs.length - 1000)) m
      = (msgs ++ [m]).drop (msgs.length + 1 - 1000) := by
  by_cases h : msgs.length < 1000
  · have h0 : msgs.length - 1000 = 0 := by omega
    have h1 : msgs.length + 1 - 1000 = 0 := by omega
    rw [h0, h1, List.drop_zero, List.drop_zero]
    exact addMessageToHistory_of_lt msgs m h
  · have hd : msgs.drop (msgs.length - 1000) ++ [m] = (msgs ++ [m]).drop (msgs.length - 1000) :=
      (List.drop_append_of_le_length (by omega)).symm
    have hlen2 : 1000 ≤ (msgs.drop (msgs.length - 1000)).length := by
      simp only [List.length_drop]
      omega
    have hge := addMessageToHistory_of_ge (msgs.drop (msgs.length - 1000)) m hlen2
    have hidx : msgs.length + 1 - 1000 = msgs.length - 1000 + 1 := by omega
    rw [hge, hd, hidx]
    exact List.tail_drop (msgs ++ [m]) (msgs.length - 1000)

/-- C4: starting from the empty history of a fresh room, after any sequence
of accepted messages the history produced by `addMessageToHistory` is
exactly the suffix of the most recent (at most 1000) messages in insertion
order — so its length never exceeds 1000 and on overflow exactly the oldest
entry is evicted first (FIFO). -/
theorem history_cap_fifo (msgs : List ChatMessage) :
    msgs.foldl addMessageToHistory [] = msgs.drop (msgs.length - 1000) ∧
    (msgs.foldl addMessageToHistory []).length ≤ 1000 := by
  have main : msgs.foldl addMessageToHistory [] = msgs.drop (msgs.length - 1000) := by
    induction msgs using List.reverseRecOn with
    | nil => simp
    | append_singleton msgs m ih =>
      rw [List.foldl_append]
      simp only [List.foldl_cons, List.foldl_nil]
      rw [ih, addMessageToHistory_drop_eq]
      have hL : (msgs ++ [m]).length - 1000 = msgs.length + 1 - 1000 := by
        simp only [List.length_append, List.length_singleton]
      rw [hL]
  refine ⟨main, ?_⟩
  rw [main]
  simp only [List.length_drop]
  omega

/-! ### C8: the delete moderation action is a frame-preserving in-place redaction -/

/-- C8 (amended): a successful `delete(messageId)` action mutates exactly the
first history entry carrying the id — setting its body to the placeholder
`"[Message removed by moderator]"`, its moderated flag, and its moderation
reason — and retains it in place: the length and order of the history and
every other entry are unchanged. -/
theorem delete_action_frame (messageId : String) (reason : Option String) :
    ∀ (msgs res : List ChatMessage),
    applyDeleteAction messageId reason msgs = some res →
    res.length = msgs.length ∧
    ∃ pre m post,
      msgs = pre ++ m :: post ∧
      (∀ x ∈ pre, x.id ≠ messageId) ∧
      m.id = messageId ∧
      res = pre ++ { m with isModerated := true,
                            message := "[Message removed by moderator]",
                            moderationReason := some (jsOrS reason "Removed by moderator") } :: post := by
  intro msgs
  induction msgs with
  | nil =>
    intro res h
    simp [applyDeleteAction] at h
  | cons m0 rest ih =>
    intro res h
    simp only [applyDeleteAction] at h
    by_cases hid : m0.id = messageId
    · simp only [hid, beq_self_eq_true, if_true, Option.some.injEq] at h
      refine ⟨?_, [], m0, rest, by simp, by simp, hid, ?_⟩
      · rw [← h]
        simp
      · rw [← h]
        simp [hid]
    · simp only [beq_iff_eq, hid, if_false] at h
      cases hr : applyDeleteAction messageId reason rest with
      | none =>
        rw [hr] at h
        simp at h
      | some res1 =>
        rw [hr] at h
        simp only [Option.map_some', Option.some.injEq] at h
        obtain ⟨hlen, pre, m, post, hmsgs, hpre, hmid, hres⟩ := ih res1 hr
        refine ⟨?_, m0 :: pre, m, post, ?_, ?_, hmid, ?_⟩
        · rw [← h]
          simp [hlen]
        · rw [hmsgs]
          simp
        · intro x hx
          rcases List.mem_cons.mp hx with rfl | hx
          · exact hid
          · exact hpre x hx
        · rw [← h, hres]
          simp

/-- Sample history entry used to instantiate the moderation-delete theorems. -/
def sampleMessage : ChatMessage :=
  { id := "m1", roomId := "r1", userId := "u1", username := "alice", message := "hello",
    timestamp := 0, type := .message, replyToId := none, isModerated := false,
    moderationReason := none }

/-- C8 counterexample: the placeholder body written by a successful delete
action is `"[Message removed by moderator]"` (capital `M`), not the
`"[message removed by moderator]"` stated in the claim. -/
theorem delete_placeholder_capitalization :
    applyDeleteAction "m1" none [sampleMessage]
      = some [{ sampleMessage with
                  isModerated := true,
                  message := "[Message removed by moderator]",
                  moderationReason := some "Removed by moderator" }] ∧
    "[Message removed by moderator]" ≠ "[message removed by moderator]" := by
  constructor
  · rfl
  · decide

/-- Witness instantiating `delete_action_frame` on a concrete one-element
history. -/
theorem delete_action_frame_inst :
    ([{ sampleMessage with
          isModerated := true,
          message := "[Message removed by moderator]",
          moderationReason := some (jsOrS none "Removed by moderator") }] : List ChatMessage).length
      = ([sampleMessage] : List ChatMessage).length ∧
    ∃ pre m post,
      ([sampleMessage] : List ChatMessage) = pre ++ m :: post ∧
      (∀ x ∈ pre, x.id ≠ "m1") ∧
      m.id = "m1" ∧
      [{ sampleMessage with
           isModerated := true,
           message := "[Message removed by moderator]",
           moderationReason := some (jsOrS none "Removed by moderator") }]
        = pre ++ { m with isModerated := true,
                          message := "[Message removed by moderator]",
                          moderationReason := some (jsOrS none "Removed by moderator") } :: post :=
  delete_action_frame "m1" none [sampleMessage] _ rfl

/-! ### C5: lazy mute expiry in the send-message mute check -/

/-- C5: for a send-message attempt by a member whose muted flag is set: when
no expiry is recorded or the expiry is still in the future the attempt is
rejected as muted with the room state and history returned unchanged; when
the expiry is not after the current time the mute state is cleared in place
(the returned state holds the user with `isMuted := false` and no expiry),
the attempt is never rejected as muted, and processing continues exactly as
for the already-cleared state. -/
theorem mute_check_spec (roomId : String) (rs : ChatRoomState) (hist : List ChatMessage)
    (userId body : String) (replyToId : Option String) (now : Nat) (newId : String) (user : ChatUser)
    (hu : lookupA userId rs.users = some user)
    (hb : user.isBanned = false)
    (hm : user.isMuted = true) :
    (user.muteExpiry = none →
      sendMessage roomId rs hist userId body replyToId now newId = (rs, hist, .err .muted)) ∧
    (∀ expiry, user.muteExpiry = some expiry → now < expiry →
      sendMessage roomId rs hist userId body replyToId now newId = (rs, hist, .err .muted)) ∧
    (∀ expiry, user.muteExpiry = some expiry → expiry ≤ now →
      sendMessage roomId rs hist userId body replyToId now newId
        = sendMessage roomId
            { rs with users := updateA userId { user with isMuted := false, muteExpiry := none } rs.users }
            hist userId body replyToId now newId ∧
      (sendMessage roomId rs hist userId body replyToId now newId).2.2 ≠ .err .muted ∧
      lookupA userId (sendMessage roomId rs hist userId body replyToId now newId).1.users
        = some { user with isMuted := false, muteExpiry := none }) := by
  refine ⟨?_, ?_, ?_⟩
  · intro hx
    simp [sendMessage, hu, hb, hm, hx]
  · intro expiry hx hlt
    simp [sendMessage, hu, hb, hm, hx, hlt]
  · intro expiry hx hle
    have hnl : ¬ now < expiry := by omega
    have hred : sendMessage roomId rs hist userId body replyToId now newId
        = sendChecks roomId
            { rs with users := updateA userId { user with isMuted := false, muteExpiry := none } rs.users }
            hist userId { user with isMuted := false, muteExpiry := none } body replyToId now newId := by
      simp [sendMessage, hu, hb, hm, hx, hnl]
    have hred2 : sendMessage roomId
            { rs with users := updateA userId { user with isMuted := false, muteExpiry := none } rs.users }
            hist userId body replyToId now newId
        = sendChecks roomId
            { rs with users := updateA userId { user with isMuted := false, muteExpiry := none } rs.users }
            hist userId { user with isMuted := false, muteExpiry := none } body replyToId now newId := by
      simp [sendMessage, lookupA_updateA_self, hb]
    refine ⟨hred.trans hred2.symm, ?_, ?_⟩
    · rw [hred]
      exact sendChecks_ne_err_muted _ _ _ _ _ _ _ _ _
    · rw [hred, sendChecks_users]
      simp [lookupA_updateA_self]

/-- Muted member used to instantiate the mute-check theorem. -/
def cMutedUser : ChatUser :=
  { id := "u1", username := "bob", displayName := "Bob", roles := ["viewer"], joinedAt := 0,
    isBanned := false, isMuted := true, muteExpiry := some 5, color := "#FF4500" }

/-- Room holding the muted member. -/
def cMutedRoom : ChatRoomState :=
  { room := { id := "r1", name := "Room r1", streamKey := "r1", isActive := true,
              createdAt := 0, userCount := 1, moderators := [], settings := defaultRoomSettings },
    users := [("u1", cMutedUser)], messages := [], userCount := 1, lastActivity := 0 }

/-- Witness instantiating `mute_check_spec` at an expired mute (expiry 5,
current time 10). -/
theorem mute_check_inst :
    sendMessage "r1" cMutedRoom [] "u1" "hi" none 10 "m1"
      = sendMessage "r1"
          { cMutedRoom with users := updateA "u1" { cMutedUser with isMuted := false, muteExpiry := none } cMutedRoom.users }
          [] "u1" "hi" none 10 "m1" ∧
    (sendMessage "r1" cMutedRoom [] "u1" "hi" none 10 "m1").2.2 ≠ .err .muted ∧
    lookupA "u1" (sendMessage "r1" cMutedRoom [] "u1" "hi" none 10 "m1").1.users
      = some { cMutedUser with isMuted := false, muteExpiry := none } :=
  (mute_check_spec "r1" cMutedRoom [] "u1" "hi" none 10 "m1" cMutedUser rfl rfl rfl).2.2
    5 rfl (by decide)

/-! ### C2: slow-mode rate limiting -/

/-- C2: for a send-message attempt in a slow-mode room by a member who
passes the ban and mute checks: when the sender is not a moderator and has a
prior message-kind entry whose elapsed time in seconds is below the
configured interval, the attempt is rejected with wait time
`ceil(interval - elapsed)`; when the elapsed time has reached the interval,
or the sender is a moderator, or the sender has no prior message-kind
entry, the attempt is never rejected by the slow-mode check. -/
theorem send_message_slow_mode_spec (roomId : String) (rs : ChatRoomState) (hist : List ChatMessage)
    (userId body : String) (replyToId : Option String) (now : Nat) (newId : String) (user : ChatUser)
    (hu : lookupA userId rs.users = some user)
    (hb : user.isBanned = false)
    (hm : user.isMuted = false)
    (hslow : rs.room.settings.slowMode = true) :
    (hasModeratorPermission user = false →
      ((hist.filter (fun m => m.userId == userId && m.type == MessageType.message)).getLast? = none →
        ∀ w, (sendMessage roomId rs hist userId body replyToId now newId).2.2 ≠ .err (.rateLimited w)) ∧
      (∀ lastMessage,
        (hist.filter (fun m => m.userId == userId && m.type == MessageType.message)).getLast? = some lastMessage →
        (((now : ℚ) - (lastMessage.timestamp : ℚ)) / 1000 < rs.room.settings.slowModeInterval →
          (sendMessage roomId rs hist userId body replyToId now newId).2.2
            = .err (.rateLimited
                ⌈rs.room.settings.slowModeInterval - ((now : ℚ) - (lastMessage.timestamp : ℚ)) / 1000⌉)) ∧
        (rs.room.settings.slowModeInterval ≤ ((now : ℚ) - (lastMessage.timestamp : ℚ)) / 1000 →
          ∀ w, (sendMessage roomId rs hist userId body replyToId now newId).2.2 ≠ .err (.rateLimited w)))) ∧
    (hasModeratorPermission user = true →
      ∀ w, (sendMessage roomId rs hist userId body replyToId now newId).2.2 ≠ .err (.rateLimited w)) := by
  have hred : sendMessage roomId rs hist userId body replyToId now newId
      = sendChecks roomId rs hist userId user body replyToId now newId := by
    simp [sendMessage, hu, hb, hm]
  refine ⟨?_, ?_⟩
  · intro hperm
    refine ⟨?_, ?_⟩
    · intro hnone w
      rw [hred, ne_eq, sendChecks_rateLimited_iff]
      simp [slowModeCheck, hslow, hperm, hnone]
    · intro lastMessage hlast
      refine ⟨?_, ?_⟩
      · intro hlt
        rw [hred, sendChecks_rateLimited_iff]
        simp [slowModeCheck, hslow, hperm, hlast, hlt]
      · intro hge w
        have hnl : ¬ ((now : ℚ) - (lastMessage.timestamp : ℚ)) / 1000 < rs.room.settings.slowModeInterval :=
          not_lt.mpr hge
        rw [hred, ne_eq, sendChecks_rateLimited_iff]
        simp [slowModeCheck, hslow, hperm, hlast, hnl]
  · intro hperm w
    rw [hred, ne_eq, sendChecks_rateLimited_iff]
    simp [slowModeCheck, hperm]

/-- Non-moderator member used to instantiate the slow-mode theorem. -/
def cSlowUser : ChatUser :=
  { id := "u2", username := "carol", displayName := "Carol", roles := ["viewer"], joinedAt := 0,
    isBanned := false, isMuted := false, muteExpiry := none, color := "#1E90FF" }

/-- Prior message of the slow-mode scenario, sent at t = 0. -/
def cSlowMsg0 : ChatMessage :=
  { id := "m0", roomId := "r2", userId := "u2", username := "carol", message := "hi",
    timestamp := 0, type := .message, replyToId := none, isModerated := false,
    moderationReason := none }

/-- Slow-mode room (interval 3 seconds) holding the member. -/
def cSlowRoom : ChatRoomState :=
  { room := { id := "r2", name := "Room r2", streamKey := "r2", isActive := true,
              createdAt := 0, userCount := 1, moderators := [],
              settings := { defaultRoomSettings with slowMode := true } },
    users := [("u2", cSlowUser)], messages := [], userCount := 1, lastActivity := 0 }

/-- Witness instantiating `send_message_slow_mode_spec` at the second message
attempt one second after the first (interval 3): rejected with wait time 2. -/
theorem send_message_slow_mode_inst :
    (sendMessage "r2" cSlowRoom [cSlowMsg0] "u2" "again" none 1000 "m1").2.2
      = .err (.rateLimited
          ⌈cSlowRoom.room.settings.slowModeInterval
            - (((1000 : Nat) : ℚ) - (cSlowMsg0.timestamp : ℚ)) / 1000⌉) ∧
    (⌈cSlowRoom.room.settings.slowModeInterval
        - (((1000 : Nat) : ℚ) - (cSlowMsg0.timestamp : ℚ)) / 1000⌉ : ℤ) = 2 :=
  ⟨(((send_message_slow_mode_spec "r2" cSlowRoom [cSlowMsg0] "u2" "again" none 1000 "m1" cSlowUser
        rfl rfl rfl rfl).1 rfl).2 cSlowMsg0 rfl).1
      (by norm_num [cSlowRoom, defaultRoomSettings, cSlowMsg0]),
    by norm_num [cSlowRoom, defaultRoomSettings, cSlowMsg0]⟩

/-! ### C3: content filtering redacts, never rejects -/

/-- C3 (amended): a message body that passes the admission checks is always
accepted: the broadcast message's body is the result of `moderateMessage`
(every case-insensitive whole-word match of an entry of the union of the
global banned-word list and the room's filtered words replaced by `***`),
its moderated flag is set iff the filtered body differs from the original,
and in that case its reason is `"Contained filtered words"`; in particular
the body `"this is inappropriate1 content"` is delivered as
`"this is *** content"`. -/
theorem content_filter_spec (roomId : String) (rs : ChatRoomState) (hist : List ChatMessage)
    (userId body : String) (replyToId : Option String) (now : Nat) (newId : String) (user : ChatUser)
    (hu : lookupA userId rs.users = some user)
    (hb : user.isBanned = false)
    (hm : user.isMuted = false)
    (hslow : slowModeCheck rs.room.settings user hist userId now = none)
    (hsub : (rs.room.settings.subscriberOnly && !user.roles.contains "subscriber"
              && !hasModeratorPermission user) = false) :
    sendMessage roomId rs hist userId body replyToId now newId
      = ({ rs with lastActivity := now },
         addMessageToHistory hist
           (mkUserMessage roomId userId user body rs.room.settings.filteredWords replyToId now newId),
         .ok (mkUserMessage roomId userId user body rs.room.settings.filteredWords replyToId now newId)) ∧
    (mkUserMessage roomId userId user body rs.room.settings.filteredWords replyToId now newId).message
      = moderateMessage body rs.room.settings.filteredWords ∧
    ((mkUserMessage roomId userId user body rs.room.settings.filteredWords replyToId now newId).isModerated = true
      ↔ moderateMessage body rs.room.settings.filteredWords ≠ body) ∧
    (mkUserMessage roomId userId user body rs.room.settings.filteredWords replyToId now newId).moderationReason
      = (if moderateMessage body rs.room.settings.filteredWords != body
         then some "Contained filtered words" else none) ∧
    moderateMessage "this is inappropriate1 content" [] = "this is *** content" := by
  refine ⟨?_, rfl, ?_, rfl, ?_⟩
  · have hred : sendMessage roomId rs hist userId body replyToId now newId
        = sendChecks roomId rs hist userId user body replyToId now newId := by
      simp [sendMessage, hu, hb, hm]
    rw [hred]
    simp only [sendChecks, hslow]
    rw [hsub]
    simp
  · simp [mkUserMessage, bne_iff_ne]
  · decide

/-- Member used to instantiate the content-filter theorems. -/
def cFilterUser : ChatUser :=
  { id := "u3", username := "dave", displayName := "Dave", roles := ["viewer"], joinedAt := 0,
    isBanned := false, isMuted := false, muteExpiry := none, color := "#32CD32" }

/-- Room with default settings holding the member. -/
def cFilterRoom : ChatRoomState :=
  { room := { id := "r3", name := "Room r3", streamKey := "r3", isActive := true,
              createdAt := 0, userCount := 1, moderators := [], settings := defaultRoomSettings },
    users := [("u3", cFilterUser)], messages := [], userCount := 1, lastActivity := 0 }

/-- C3 counterexample: the moderation reason recorded on a redacted message
is `"Contained filtered words"` (capital `C`), not the
`"contained filtered words"` stated in the claim. -/
theorem moderation_reason_capitalization :
    (sendMessage "r3" cFilterRoom [] "u3" "this is inappropriate1 content" none 5 "m1").2.2
      = .ok (mkUserMessage "r3" "u3" cFilterUser "this is inappropriate1 content" [] none 5 "m1") ∧
    (mkUserMessage "r3" "u3" cFilterUser "this is inappropriate1 content" [] none 5 "m1").moderationReason
      = some "Contained filtered words" ∧
    some "Contained filtered words" ≠ (some "contained filtered words" : Option String) := by
  refine ⟨by decide, by decide, by decide⟩

/-- Witness instantiating `content_filter_spec` on the spec's own example
body in a default-settings room. -/
theorem content_filter_inst :
    sendMessage "r3" cFilterRoom [] "u3" "this is inappropriate1 content" none 5 "m1"
      = ({ cFilterRoom with lastActivity := 5 },
         addMessageToHistory []
           (mkUserMessage "r3" "u3" cFilterUser "this is inappropriate1 content"
             cFilterRoom.room.settings.filteredWords none 5 "m1"),
         .ok (mkUserMessage "r3" "u3" cFilterUser "this is inappropriate1 content"
             cFilterRoom.room.settings.filteredWords none 5 "m1")) ∧
    (mkUserMessage "r3" "u3" cFilterUser "this is inappropriate1 content"
        cFilterRoom.room.settings.filteredWords none 5 "m1").message
      = moderateMessage "this is inappropriate1 content" cFilterRoom.room.settings.filteredWords ∧
    ((mkUserMessage "r3" "u3" cFilterUser "this is inappropriate1 content"
        cFilterRoom.room.settings.filteredWords none 5 "m1").isModerated = true
      ↔ moderateMessage "this is inappropriate1 content" cFilterRoom.room.settings.filteredWords
          ≠ "this is inappropriate1 content") ∧
    (mkUserMessage "r3" "u3" cFilterUser "this is inappropriate1 content"
        cFilterRoom.room.settings.filteredWords none 5 "m1").moderationReason
      = (if moderateMessage "this is inappropriate1 content" cFilterRoom.room.settings.filteredWords
            != "this is inappropriate1 content"
         then some "Contained filtered words" else none) ∧
    moderateMessage "this is inappropriate1 content" [] = "this is *** content" :=
  content_filter_spec "r3" cFilterRoom [] "u3" "this is inappropriate1 content" none 5 "m1"
    cFilterUser rfl rfl rfl rfl rfl

/-! ### C6: leave is idempotent -/

theorem handleUserLeave_socketUsers (st : ServiceState) (socketId roomId : String)
    (now : Nat) (sysId : String) :
    (handleUserLeave st socketId roomId now sysId).1.socketUsers = st.socketUsers := by
  unfold handleUserLeave
  repeat' split
  all_goals simp [addSystemMessage_socketUsers, apply_ite ServiceState.socketUsers]

theorem handleUserLeave_userSockets (st : ServiceState) (socketId roomId : String)
    (now : Nat) (sysId : String) :
    (handleUserLeave st socketId roomId now sysId).1.userSockets = st.userSockets := by
  unfold handleUserLeave
  repeat' split
  all_goals simp [addSystemMessage_userSockets, apply_ite ServiceState.userSockets]

theorem handleUserLeave_chatRooms (st : ServiceState) (socketId roomId : String)
    (now : Nat) (sysId : String) (userId : String) (rs : ChatRoomState) (user : ChatUser)
    (hs : lookupA socketId st.socketUsers = some userId)
    (hr : lookupA roomId st.chatRooms = some rs)
    (hm : lookupA userId rs.users = some user) :
    (handleUserLeave st socketId roomId now sysId).1.chatRooms
      = updateA roomId
          { rs with users := removeA userId rs.users,
                    userCount := (removeA userId rs.users).length }
          st.chatRooms := by
  simp only [handleUserLeave, hs, hr, hm]
  split <;> simp [addSystemMessage_chatRooms]

theorem handleUserLeave_events (st : ServiceState) (socketId roomId : String)
    (now : Nat) (sysId : String) (userId : String) (rs : ChatRoomState) (user : ChatUser)
    (hs : lookupA socketId st.socketUsers = some userId)
    (hr : lookupA roomId st.chatRooms = some rs)
    (hm : lookupA userId rs.users = some user) :
    (handleUserLeave st socketId roomId now sysId).2
      = [ChatEventOut.userLeft roomId userId user.username,
         ChatEventOut.newMessage roomId
           (mkSystemMessage sysId roomId (user.displayName ++ " left the chat") now)] := by
  simp only [handleUserLeave, hs, hr, hm]
  simp [addSystemMessage, lookupA_updateA_self]

theorem handleUserLeave_noop (st : ServiceState) (socketId roomId userId : String)
    (rs : ChatRoomState) (now : Nat) (sysId : String)
    (hs : lookupA socketId st.socketUsers = some userId)
    (hr : lookupA roomId st.chatRooms = some rs)
    (hm : lookupA userId rs.users = none) :
    handleUserLeave st socketId roomId now sysId = (st, []) := by
  simp [handleUserLeave, hs, hr, hm]

/-- C6: for a registered user who is a member of an existing room, the first
leave emits exactly one `user-left` broadcast and one "left the chat"
system message, and a second leave for the same user and room is a no-op:
it returns the first call's state unchanged and emits no events and no
error. -/
theorem leave_idempotent (st : ServiceState) (socketId roomId : String)
    (now1 now2 : Nat) (sysId1 sysId2 : String) (userId : String) (rs : ChatRoomState) (user : ChatUser)
    (hs : lookupA socketId st.socketUsers = some userId)
    (hr : lookupA roomId st.chatRooms = some rs)
    (hm : lookupA userId rs.users = some user) :
    (handleUserLeave st socketId roomId now1 sysId1).2
      = [ChatEventOut.userLeft roomId userId user.username,
         ChatEventOut.newMessage roomId
           (mkSystemMessage sysId1 roomId (user.displayName ++ " left the chat") now1)] ∧
    handleUserLeave (handleUserLeave st socketId roomId now1 sysId1).1 socketId roomId now2 sysId2
      = ((handleUserLeave st socketId roomId now1 sysId1).1, ([] : List ChatEventOut)) := by
  refine ⟨handleUserLeave_events st socketId roomId now1 sysId1 userId rs user hs hr hm, ?_⟩
  apply handleUserLeave_noop _ _ _ userId
    { rs with users := removeA userId rs.users,
              userCount := (removeA userId rs.users).length }
  · rw [handleUserLeave_socketUsers]
    exact hs
  · rw [handleUserLeave_chatRooms st socketId roomId now1 sysId1 userId rs user hs hr hm]
    exact lookupA_updateA_self _ _ _
  · exact lookupA_removeA_self _ _

/-- Member used to instantiate the leave-idempotence theorem. -/
def cLeaveUser : ChatUser :=
  { id := "u4", username := "erin", displayName := "Erin", roles := ["viewer"], joinedAt := 0,
    isBanned := false, isMuted := false, muteExpiry := none, color := "#9400D3" }

/-- Room holding the member. -/
def cLeaveRoom : ChatRoomState :=
  { room := { id := "r4", name := "Room r4", streamKey := "r4", isActive := true,
              createdAt := 0, userCount := 1, moderators := [], settings := defaultRoomSettings },
    users := [("u4", cLeaveUser)], messages := [], userCount := 1, lastActivity := 0 }

/-- Service state holding the room and the registered connection. -/
def cLeaveState : ServiceState :=
  { chatRooms := [("r4", cLeaveRoom)], messageHistory := [("r4", [])],
    socketUsers := [("sock4", "u4")], userSockets := [("u4", "sock4")], pendingEvictions := [] }

/-- Witness instantiating `leave_idempotent` on a concrete one-member room. -/
theorem leave_idempotent_inst :
    (handleUserLeave cLeaveState "sock4" "r4" 7 "s1").2
      = [ChatEventOut.userLeft "r4" "u4" cLeaveUser.username,
         ChatEventOut.newMessage "r4"
           (mkSystemMessage "s1" "r4" (cLeaveUser.displayName ++ " left the chat") 7)] ∧
    handleUserLeave (handleUserLeave cLeaveState "sock4" "r4" 7 "s1").1 "sock4" "r4" 8 "s2"
      = ((handleUserLeave cLeaveState "sock4" "r4" 7 "s1").1, ([] : List ChatEventOut)) :=
  leave_idempotent cLeaveState "sock4" "r4" 7 8 "s1" "s2" "u4" cLeaveRoom cLeaveUser rfl rfl rfl

/-! ### C9: empty-room eviction is guarded at schedule time and at fire time -/

theorem fireEviction_nonempty (st : ServiceState) (roomId : String) (rs : ChatRoomState)
    (hr : lookupA roomId st.chatRooms = some rs) (hc : rs.userCount ≠ 0) :
    lookupA roomId (fireEviction st roomId).chatRooms = some rs ∧
    lookupA roomId (fireEviction st roomId).messageHistory = lookupA roomId st.messageHistory := by
  have hb : (rs.userCount == 0) = false := by
    simp [hc]
  simp [fireEviction, hr, hb]

/-- C9: an eviction timer is scheduled by a leave only when the room's
membership dropped to zero and the room id does not carry the `stream_`
marker, with fire time 10 minutes later; and the timer body deletes the
room and its history only when the membership count is still zero at fire
time — a room whose count is non-zero when the timer fires survives with
its history intact. -/
theorem eviction_guard_spec (st : ServiceState) (socketId roomId : String) (now : Nat) (sysId : String) :
    ((handleUserLeave st socketId roomId now sysId).1.pendingEvictions ≠ st.pendingEvictions →
      (handleUserLeave st socketId roomId now sysId).1.pendingEvictions
          = st.pendingEvictions ++ [(roomId, now + evictionDelayMs)] ∧
      ∃ rs1, lookupA roomId (handleUserLeave st socketId roomId now sysId).1.chatRooms = some rs1 ∧
        rs1.userCount = 0 ∧
        rs1.room.id.startsWith "stream_" = false) ∧
    (∀ rs, lookupA roomId st.chatRooms = some rs → rs.userCount ≠ 0 →
      lookupA roomId (fireEviction st roomId).chatRooms = some rs ∧
      lookupA roomId (fireEviction st roomId).messageHistory = lookupA roomId st.messageHistory) ∧
    (∀ rs, lookupA roomId st.chatRooms = some rs →
      lookupA roomId (fireEviction st roomId).chatRooms = none →
      rs.userCount = 0) := by
  refine ⟨?_, ?_, ?_⟩
  · cases hs : lookupA socketId st.socketUsers with
    | none => simp [handleUserLeave, hs]
    | some userId =>
      cases hr : lookupA roomId st.chatRooms with
      | none => simp [handleUserLeave, hs, hr]
      | some rs =>
        cases hm : lookupA userId rs.users with
        | none => simp [handleUserLeave, hs, hr, hm]
        | some user =>
          simp only [handleUserLeave, hs, hr, hm]
          by_cases hg : ((removeA userId rs.users).length == 0
              && !rs.room.id.startsWith "stream_") = true
          · rw [if_pos hg]
            intro _
            simp only [Bool.and_eq_true, beq_iff_eq, Bool.not_eq_true'] at hg
            refine ⟨by simp [addSystemMessage_pendingEvictions], ?_⟩
            refine ⟨{ rs with users := removeA userId rs.users,
                              userCount := (removeA userId rs.users).length }, ?_, hg.1, hg.2⟩
            simp [addSystemMessage_chatRooms, lookupA_updateA_self]
          · rw [if_neg hg]
            intro h
            exact absurd (addSystemMessage_pendingEvictions _ _ _ _ _) h
  · intro rs hr hc
    exact fireEviction_nonempty st roomId rs hr hc
  · intro rs hr hdel
    by_cases hc : rs.userCount = 0
    · exact hc
    · have hkeep := (fireEviction_nonempty st roomId rs hr hc).1
      rw [hdel] at hkeep
      exact absurd hkeep (by simp)

/-- Room with one remaining member, used to instantiate the eviction theorem. -/
def cEvictRoom : ChatRoomState :=
  { room := { id := "r5", name := "Room r5", streamKey := "r5", isActive := true,
              createdAt := 0, userCount := 1, moderators := [], settings := defaultRoomSettings },
    users := [("u5", cLeaveUser)], messages := [], userCount := 1, lastActivity := 0 }

/-- Service state in which the eviction timer for the room is pending. -/
def cEvictState : ServiceState :=
  { chatRooms := [("r5", cEvictRoom)], messageHistory := [("r5", [])],
    socketUsers := [], userSockets := [], pendingEvictions := [("r5", 600000)] }

/-- Witness instantiating `eviction_guard_spec`: a room whose count is 1 at
fire time survives the timer with its history entry intact. -/
theorem eviction_guard_inst :
    lookupA "r5" (fireEviction cEvictState "r5").chatRooms = some cEvictRoom ∧
    lookupA "r5" (fireEviction cEvictState "r5").messageHistory
      = lookupA "r5" cEvictState.messageHistory :=
  (eviction_guard_spec cEvictState "sockX" "r5" 0 "i").2.1 cEvictRoom rfl (by decide)

/-! ### C10: re-joining replaces the membership entry with a fresh one -/

/-- C10: a join-room request (direct, no stream key) by a registered user who
is already a member of the target room replaces the existing `ChatUser`
entry with a freshly constructed one — `isBanned = false`, `isMuted = false`,
no mute expiry, names, roles and color from the supplied fields or their
defaults — and leaves the room's `userCount` unchanged; in particular the
fresh member passes the ban and mute send checks again. -/
theorem rejoin_resets_moderation_state (st : ServiceState) (socketId roomId : String)
    (u : JoinFields) (now : Nat) (welcomeId sysId randomColor : String)
    (userId : String) (rs : ChatRoomState) (old : ChatUser)
    (hs : lookupA socketId st.socketUsers = some userId)
    (hr : lookupA roomId st.chatRooms = some rs)
    (hm : lookupA userId rs.users = some old)
    (hc : rs.userCount = rs.users.length) :
    ∃ rs1, lookupA roomId (joinRoom st socketId roomId none u now welcomeId sysId randomColor).1.chatRooms
        = some rs1 ∧
      lookupA userId rs1.users = some (mkChatUser userId u now randomColor) ∧
      (mkChatUser userId u now randomColor).isBanned = false ∧
      (mkChatUser userId u now randomColor).isMuted = false ∧
      (mkChatUser userId u now randomColor).muteExpiry = none ∧
      (mkChatUser userId u now randomColor).roles = u.roles.getD ["viewer"] ∧
      (mkChatUser userId u now randomColor).username = jsOrS u.username ("user_" ++ userId.take 8) ∧
      (mkChatUser userId u now randomColor).color = jsOrS u.color randomColor ∧
      rs1.userCount = rs.userCount ∧
      (∀ (hist : List ChatMessage) (body : String) (replyToId : Option String) (now2 : Nat) (newId : String),
        (sendMessage roomId rs1 hist userId body replyToId now2 newId).2.2 ≠ .err .banned ∧
        (sendMessage roomId rs1 hist userId body replyToId now2 newId).2.2 ≠ .err .muted) := by
  refine ⟨{ rs with users := updateA userId (mkChatUser userId u now randomColor) rs.users,
                    userCount := (updateA userId (mkChatUser userId u now randomColor) rs.users).length,
                    lastActivity := now },
          ?_, lookupA_updateA_self _ _ _, rfl, rfl, rfl, rfl, rfl, rfl, ?_, ?_⟩
  · simp only [joinRoom, joinIntoRoom, hs, hr]
    rw [addSystemMessage_chatRooms]
    exact lookupA_updateA_self _ _ _
  · exact (length_updateA_of_lookup hm _).trans hc.symm
  · intro hist body replyToId now2 newId
    have hred : sendMessage roomId
          { rs with users := updateA userId (mkChatUser userId u now randomColor) rs.users,
                    userCount := (updateA userId (mkChatUser userId u now randomColor) rs.users).length,
                    lastActivity := now }
          hist userId body replyToId now2 newId
        = sendChecks roomId
            { rs with users := updateA userId (mkChatUser userId u now randomColor) rs.users,
                      userCount := (updateA userId (mkChatUser userId u now randomColor) rs.users).length,
                      lastActivity := now }
            hist userId (mkChatUser userId u now randomColor) body replyToId now2 newId := by
      simp [sendMessage, lookupA_updateA_self, mkChatUser]
    rw [hred]
    exact ⟨sendChecks_ne_err_banned _ _ _ _ _ _ _ _ _, sendChecks_ne_err_muted _ _ _ _ _ _ _ _ _⟩

/-- Service state holding the muted member's room, used to instantiate the
re-join theorem: the member re-joins while still marked muted. -/
def cRejoinState : ServiceState :=
  { chatRooms := [("r1", cMutedRoom)], messageHistory := [("r1", [])],
    socketUsers := [("sock1", "u1")], userSockets := [("u1", "sock1")], pendingEvictions := [] }

/-- Join fields supplied on the re-join. -/
def cRejoinFields : JoinFields :=
  { username := some "bob", displayName := none, roles := none, color := none }

/-- Witness instantiating `rejoin_resets_moderation_state`: the muted member
of `cMutedRoom` re-joins and regains a fresh unmuted, unbanned entry with
the count unchanged. -/
theorem rejoin_resets_inst :
    ∃ rs1, lookupA "r1" (joinRoom cRejoinState "sock1" "r1" none cRejoinFields 20 "w" "s" "#FF4500").1.chatRooms
        = some rs1 ∧
      lookupA "u1" rs1.users = some (mkChatUser "u1" cRejoinFields 20 "#FF4500") ∧
      (mkChatUser "u1" cRejoinFields 20 "#FF4500").isBanned = false ∧
      (mkChatUser "u1" cRejoinFields 20 "#FF4500").isMuted = false ∧
      (mkChatUser "u1" cRejoinFields 20 "#FF4500").muteExpiry = none ∧
      (mkChatUser "u1" cRejoinFields 20 "#FF4500").roles = cRejoinFields.roles.getD ["viewer"] ∧
      (mkChatUser "u1" cRejoinFields 20 "#FF4500").username
        = jsOrS cRejoinFields.username ("user_" ++ "u1".take 8) ∧
      (mkChatUser "u1" cRejoinFields 20 "#FF4500").color = jsOrS cRejoinFields.color "#FF4500" ∧
      rs1.userCount = cMutedRoom.userCount ∧
      (∀ (hist : List ChatMessage) (body : String) (replyToId : Option String) (now2 : Nat) (newId : String),
        (sendMessage "r1" rs1 hist "u1" body replyToId now2 newId).2.2 ≠ .err .banned ∧
        (sendMessage "r1" rs1 hist "u1" body replyToId now2 newId).2.2 ≠ .err .muted) :=
  rejoin_resets_moderation_state cRejoinState "sock1" "r1" cRejoinFields 20 "w" "s" "#FF4500"
    "u1" cMutedRoom cMutedUser rfl rfl rfl rfl

/-! ### C1: ban marks the target banned, but removes the entry only when the
target has a live socket registration -/

/-- C1 (amended): after a successful ban action, when the target had a live
socket registration its `ChatUser` entry is removed from the room and the
membership count is recomputed to the number of remaining entries; when the
target had no live socket registration, its entry remains in the room's
users map, marked `isBanned = true`, and the count is not recomputed. -/
theorem ban_with_live_socket_removes_target (st : ServiceState) (socketId roomId targetId : String)
    (reason : Option String) (now : Nat) (sysId : String) (st1 : ServiceState) (ev : List ChatEventOut)
    (h : banAction st socketId roomId targetId reason now sysId = some (st1, ev)) :
    (∀ sock, lookupA targetId st.userSockets = some sock →
      ∃ rs1, lookupA roomId st1.chatRooms = some rs1 ∧
        lookupA targetId rs1.users = none ∧
        rs1.userCount = rs1.users.length) ∧
    (lookupA targetId st.userSockets = none →
      ∃ rs1 banned, lookupA roomId st1.chatRooms = some rs1 ∧
        lookupA targetId rs1.users = some banned ∧
        banned.isBanned = true) := by
  simp only [banAction] at h
  cases hs : lookupA socketId st.socketUsers with
  | none =>
    simp only [hs] at h
    exact Option.noConfusion h
  | some moderatorId =>
    simp only [hs] at h
    cases hr : lookupA roomId st.chatRooms with
    | none =>
      simp only [hr] at h
      exact Option.noConfusion h
    | some rs =>
      simp only [hr] at h
      cases hmod : lookupA moderatorId rs.users with
      | none =>
        simp only [hmod] at h
        exact Option.noConfusion h
      | some moderator =>
        simp only [hmod] at h
        by_cases hperm : (!hasModeratorPermission moderator) = true
        · rw [if_pos hperm] at h
          simp at h
        · rw [if_neg hperm] at h
          cases htar : lookupA targetId rs.users with
          | none =>
            simp only [htar] at h
            exact Option.noConfusion h
          | some banUser =>
            simp only [htar] at h
            constructor
            · intro sock hsock
              simp only [hsock] at h
              simp only [Option.some.injEq, Prod.mk.injEq] at h
              obtain ⟨hst, _⟩ := h
              rw [← hst, addSystemMessage_chatRooms]
              refine ⟨_, lookupA_updateA_self _ _ _, ?_, rfl⟩
              exact lookupA_removeA_self _ _
            · intro hsock
              simp only [hsock] at h
              simp only [Option.some.injEq, Prod.mk.injEq] at h
              obtain ⟨hst, _⟩ := h
              rw [← hst, addSystemMessage_chatRooms]
              refine ⟨_, { banUser with isBanned := true }, lookupA_updateA_self _ _ _, ?_, rfl⟩
              exact lookupA_updateA_self _ _ _

/-- Moderator member used to instantiate the ban theorems. -/
def cBanModerator : ChatUser :=
  { id := "mod6", username := "frank", displayName := "Frank", roles := ["moderator"], joinedAt := 0,
    isBanned := false, isMuted := false, muteExpiry := none, color := "#FF69B4" }

/-- Target member used to instantiate the ban theorems. -/
def cBanTarget : ChatUser :=
  { id := "u6", username := "grace", displayName := "Grace", roles := ["viewer"], joinedAt := 0,
    isBanned := false, isMuted := false, muteExpiry := none, color := "#BA55D3" }

/-- Room holding the moderator and the target. -/
def cBanRoom : ChatRoomState :=
  { room := { id := "r6", name := "Room r6", streamKey := "r6", isActive := true,
              createdAt := 0, userCount := 2, moderators := [], settings := defaultRoomSettings },
    users := [("mod6", cBanModerator), ("u6", cBanTarget)], messages := [],
    userCount := 2, lastActivity := 0 }

/-- Service state in which both members have live socket registrations. -/
def cBanState : ServiceState :=
  { chatRooms := [("r6", cBanRoom)], messageHistory := [("r6", [])],
    socketUsers := [("sockM", "mod6"), ("sockU", "u6")],
    userSockets := [("mod6", "sockM"), ("u6", "sockU")], pendingEvictions := [] }

/-- Witness instantiating `ban_with_live_socket_removes_target` at a
successful ban of a target with a live socket. -/
theorem ban_with_live_socket_removes_target_inst :
    ∃ rs1, lookupA "r6"
        ((banAction cBanState "sockM" "r6" "u6" none 9 "s9").getD (cBanState, [])).1.chatRooms
        = some rs1 ∧
      lookupA "u6" rs1.users = none ∧
      rs1.userCount = rs1.users.length :=
  (ban_with_live_socket_removes_target cBanState "sockM" "r6" "u6" none 9 "s9"
      ((banAction cBanState "sockM" "r6" "u6" none 9 "s9").getD (cBanState, [])).1
      ((banAction cBanState "sockM" "r6" "u6" none 9 "s9").getD (cBanState, [])).2
      (by rfl)).1 "sockU" rfl

/-- Join fields carrying no identity overrides. -/
def cexNoFields : JoinFields :=
  { username := none, displayName := none, roles := none, color := none }

/-- Join fields declaring the moderator role. -/
def cexModFields : JoinFields :=
  { username := some "mod", displayName := none, roles := some ["moderator"], color := none }

/-- Operation sequence reaching a state in which user `victim` is a member
of `room1` but has no live socket registration: the identity was registered
on two sockets, and the first socket's disconnect deleted the shared
`userSockets` binding (exactly as the `disconnect` handler does). -/
def cexOps : List ChatOp :=
  [ .register "sockA" "victim",
    .register "sockB" "victim",
    .disconnect "sockA" 0 "d1",
    .register "sockC" "modUser",
    .join "sockC" "room1" none cexModFields 1 "w1" "s1" "#FF4500",
    .join "sockB" "room1" none cexNoFields 2 "w2" "s2" "#FF8C00" ]

/-- The reachable state produced by `cexOps`. -/
def cexState : ServiceState := cexOps.foldl step initialState

/-- C1 counterexample: in the reachable state `cexState` the moderator is a
member with moderator permission and the target is a member, the ban action
succeeds — and yet the target still has a `ChatUser` entry in the room's
users map afterwards, marked banned: a successful ban does not remove the
entry of a target without a live socket registration. -/
theorem ban_without_socket_keeps_entry :
    ((lookupA "room1" cexState.chatRooms).bind
        (fun rs => lookupA "modUser" rs.users)).map hasModeratorPermission = some true ∧
    ((lookupA "room1" cexState.chatRooms).bind
        (fun rs => lookupA "victim" rs.users)).isSome = true ∧
    (banAction cexState "sockC" "room1" "victim" none 3 "s3").isSome = true ∧
    ((banAction cexState "sockC" "room1" "victim" none 3 "s3").bind
        (fun res => (lookupA "room1" res.1.chatRooms).bind
          (fun rs => lookupA "victim" rs.users))).map
      (fun u => u.isBanned) = some true := by
  decide

/-! ### C7: the membership count always equals the number of ChatUser entries -/

/-- Room-level consistency: the stored count equals the number of entries. -/
def roomCountOk (rs : ChatRoomState) : Prop := rs.userCount = rs.users.length

/-- Service-level invariant: every registered room is consistent. -/
def countInvariant (st : ServiceState) : Prop :=
  ∀ p ∈ st.chatRooms, roomCountOk p.2

theorem countInvariant_addSystemMessage (st : ServiceState) (roomId text newId : String) (now : Nat)
    (h : countInvariant st) : countInvariant (addSystemMessage st roomId text newId now).1 := by
  intro p hp
  rw [addSystemMessage_chatRooms] at hp
  exact h p hp

theorem countInvariant_insertRoom (st : ServiceState) (roomId : String) (rs : ChatRoomState)
    (h : countInvariant st) (hrs : roomCountOk rs) (text sysId : String) (now : Nat) :
    countInvariant (addSystemMessage { st with chatRooms := updateA roomId rs st.chatRooms }
      roomId text sysId now).1 := by
  apply countInvariant_addSystemMessage
  intro p hp
  exact forall_updateA h hrs p hp

theorem createRoom_chatRooms (st : ServiceState) (id name streamKey : String) (now : Nat) (welcomeId : String) :
    (createRoom st id name streamKey now welcomeId).1.chatRooms
      = updateA id
          { room := { id := id, name := name, streamKey := streamKey, isActive := true,
                      createdAt := now, userCount := 0, moderators := [],
                      settings := defaultRoomSettings },
            users := [], messages := [], userCount := 0, lastActivity := now }
          st.chatRooms := by
  simp [createRoom, addSystemMessage_chatRooms]

theorem countInvariant_createRoom (st : ServiceState) (id name streamKey : String) (now : Nat)
    (welcomeId : String) (h : countInvariant st) :
    countInvariant (createRoom st id name streamKey now welcomeId).1 := by
  intro p hp
  rw [createRoom_chatRooms] at hp
  refine forall_updateA h ?_ p hp
  rfl

theorem countInvariant_handleUserLeave (st : ServiceState) (socketId roomId : String)
    (now : Nat) (sysId : String) (h : countInvariant st) :
    countInvariant (handleUserLeave st socketId roomId now sysId).1 := by
  cases hs : lookupA socketId st.socketUsers with
  | none => simpa [handleUserLeave, hs] using h
  | some userId =>
    cases hr : lookupA roomId st.chatRooms with
    | none => simpa [handleUserLeave, hs, hr] using h
    | some rs =>
      cases hm : lookupA userId rs.users with
      | none => simpa [handleUserLeave, hs, hr, hm] using h
      | some user =>
        have hbase : countInvariant (addSystemMessage
            { st with
                chatRooms := updateA roomId
                    { rs with
                        users := removeA userId rs.users,
                        userCount := (removeA userId rs.users).length }
                    st.chatRooms }
            roomId (user.displayName ++ " left the chat") sysId now).1 :=
          countInvariant_insertRoom st roomId
            { rs with
                users := removeA userId rs.users,
                userCount := (removeA userId rs.users).length }
            h rfl _ _ _
        simp only [handleUserLeave, hs, hr, hm]
        split
        · intro p hp
          exact hbase p hp
        · exact hbase

theorem countInvariant_joinIntoRoom (st1 : ServiceState) (targetRoomId userId : String)
    (streamKey : Option String) (u : JoinFields) (now : Nat) (welcomeId sysId randomColor : String)
    (h : countInvariant st1) :
    countInvariant (joinIntoRoom st1 targetRoomId userId streamKey u now welcomeId sysId randomColor).1 := by
  cases hf : lookupA targetRoomId st1.chatRooms with
  | some rs =>
    simp only [joinIntoRoom, hf]
    apply countInvariant_insertRoom
    · exact h
    · rfl
  | none =>
    simp only [joinIntoRoom, hf]
    apply countInvariant_insertRoom
    · exact countInvariant_createRoom st1 targetRoomId _ _ now welcomeId h
    · rfl

theorem countInvariant_joinRoom (st : ServiceState) (socketId roomId : String)
    (streamKey : Option String) (u : JoinFields) (now : Nat) (welcomeId sysId randomColor : String)
    (h : countInvariant st) :
    countInvariant (joinRoom st socketId roomId streamKey u now welcomeId sysId randomColor).1 := by
  cases hs : lookupA socketId st.socketUsers with
  | none => simpa [joinRoom, hs] using h
  | some userId =>
    simp only [joinRoom, hs]
    cases streamKey with
    | none =>
      exact countInvariant_joinIntoRoom st roomId userId none u now welcomeId sysId randomColor h
    | some k =>
      cases hk : k.isEmpty with
      | true =>
        simp only [hk, if_true]
        exact countInvariant_joinIntoRoom st roomId userId (some k) u now welcomeId sysId randomColor h
      | false =>
        simp only [hk, Bool.false_eq_true, if_false]
        cases hf : findRoomByStreamKey st k with
        | some rid =>
          simp only [hf]
          exact countInvariant_joinIntoRoom st rid userId (some k) u now welcomeId sysId randomColor h
        | none =>
          simp only [hf]
          exact countInvariant_joinIntoRoom _ _ userId (some k) u now welcomeId sysId randomColor
            (countInvariant_createRoom st _ _ _ now welcomeId h)

theorem countInvariant_banAction (st : ServiceState) (socketId roomId targetId : String)
    (reason : Option String) (now : Nat) (sysId : String) (st1 : ServiceState) (ev : List ChatEventOut)
    (hb : banAction st socketId roomId targetId reason now sysId = some (st1, ev))
    (h : countInvariant st) : countInvariant st1 := by
  simp only [banAction] at hb
  cases hs : lookupA socketId st.socketUsers with
  | none =>
    simp only [hs] at hb
    exact Option.noConfusion hb
  | some moderatorId =>
    simp only [hs] at hb
    cases hr : lookupA roomId st.chatRooms with
    | none =>
      simp only [hr] at hb
      exact Option.noConfusion hb
    | some rs =>
      simp only [hr] at hb
      cases hmod : lookupA moderatorId rs.users with
      | none =>
        simp only [hmod] at hb
        exact Option.noConfusion hb
      | some moderator =>
        simp only [hmod] at hb
        by_cases hperm : (!hasModeratorPermission moderator) = true
        · rw [if_pos hperm] at hb
          exact Option.noConfusion hb
        · rw [if_neg hperm] at hb
          cases htar : lookupA targetId rs.users with
          | none =>
            simp only [htar] at hb
            exact Option.noConfusion hb
          | some banUser =>
            simp only [htar] at hb
            cases hsock : lookupA targetId st.userSockets with
            | some sock =>
              simp only [hsock] at hb
              simp only [Option.some.injEq, Prod.mk.injEq] at hb
              obtain ⟨hst, _⟩ := hb
              rw [← hst]
              apply countInvariant_insertRoom
              · exact h
              · rfl
            | none =>
              simp only [hsock] at hb
              simp only [Option.some.injEq, Prod.mk.injEq] at hb
              obtain ⟨hst, _⟩ := hb
              rw [← hst]
              apply countInvariant_insertRoom
              · exact h
              · show rs.userCount = (updateA targetId { banUser with isBanned := true } rs.users).length
                rw [length_updateA_of_lookup htar]
                exact h (roomId, rs) (mem_of_lookupA hr)

theorem countInvariant_disconnectSocket (st : ServiceState) (socketId : String)
    (now : Nat) (sysId : String) (h : countInvariant st) :
    countInvariant (disconnectSocket st socketId now sysId).1 := by
  cases hs : lookupA socketId st.socketUsers with
  | none => simpa [disconnectSocket, hs] using h
  | some userId =>
    simp only [disconnectSocket, hs]
    have hfold : ∀ (rids : List String) (st0 : ServiceState) (ev0 : List ChatEventOut),
        countInvariant st0 →
        countInvariant (rids.foldl
          (fun acc rid =>
            let next := handleUserLeave acc.1 socketId rid now sysId
            (next.1, acc.2 ++ next.2))
          (st0, ev0)).1 := by
      intro rids
      induction rids with
      | nil => intro st0 ev0 h0; exact h0
      | cons rid rest ih =>
        intro st0 ev0 h0
        simp only [List.foldl_cons]
        exact ih _ _ (countInvariant_handleUserLeave _ _ _ _ _ h0)
    intro p hp
    exact hfold _ st [] h p hp

theorem countInvariant_fireEviction (st : ServiceState) (roomId : String)
    (h : countInvariant st) : countInvariant (fireEviction st roomId) := by
  cases hf : lookupA roomId st.chatRooms with
  | none =>
    simp only [fireEviction, hf]
    exact h
  | some rs =>
    by_cases hc : (rs.userCount == 0) = true
    · simp only [fireEviction, hf, hc, if_true]
      intro p hp
      exact h p (List.mem_of_mem_filter hp)
    · simp only [fireEviction, hf]
      rw [if_neg hc]
      exact h

theorem countInvariant_step (st : ServiceState) (op : ChatOp) (h : countInvariant st) :
    countInvariant (step st op) := by
  cases op with
  | register s u =>
    intro p hp
    exact h p hp
  | join s r k u now wid sid c => exact countInvariant_joinRoom st s r k u now wid sid c h
  | leave s r now sid => exact countInvariant_handleUserLeave st s r now sid h
  | ban s r t reason now sid =>
    simp only [step]
    cases hb : banAction st s r t reason now sid with
    | none => exact h
    | some res =>
      exact countInvariant_banAction st s r t reason now sid res.1 res.2 (by rw [hb]) h
  | disconnect s now sid => exact countInvariant_disconnectSocket st s now sid h
  | evictionTimer r => exact countInvariant_fireEviction st r h

theorem countInvariant_reachable (ops : List ChatOp) :
    countInvariant (ops.foldl step initialState) := by
  induction ops using List.reverseRecOn with
  | nil =>
    intro p hp
    simp [initialState] at hp
  | append_singleton ops op ih =>
    rw [List.foldl_append]
    simp only [List.foldl_cons, List.foldl_nil]
    exact countInvariant_step _ _ ih

/-- C7: starting from the initial service state, after any sequence of
register, join, leave, ban, disconnect and eviction-timer operations, every
registered room's `userCount` field equals the number of `ChatUser` entries
currently held in its users map. -/
theorem user_count_invariant (ops : List ChatOp) (roomId : String) (rs : ChatRoomState)
    (h : lookupA roomId (ops.foldl step initialState).chatRooms = some rs) :
    rs.userCount = rs.users.length :=
  countInvariant_reachable ops (roomId, rs) (mem_of_lookupA h)

/-- Operation sequence used to instantiate the count invariant. -/
def c7Ops : List ChatOp :=
  [ .register "sockP" "pam",
    .join "sockP" "room7" none cexNoFields 1 "w1" "s1" "#00BFFF" ]

/-- The state reached by `c7Ops`. -/
def c7State : ServiceState := c7Ops.foldl step initialState

/-- The room registered by `c7Ops`. -/
def c7Room : ChatRoomState := (lookupA "room7" c7State.chatRooms).getD cBanRoom

/-- Witness instantiating `user_count_invariant` on a concrete operation
sequence that registers a user and joins a room. -/
theorem user_count_invariant_inst : c7Room.userCount = c7Room.users.length :=
  user_count_invariant c7Ops "room7" c7Room (by rfl)
